import Mathlib

/-!
Shallow embedding of the EME Monaco chatbot core (TypeScript sources under
`src/`): the input-validation/sanitization boundary (`InputValidator`,
`utils/sanitization`), the session store (`StorageManager`), the request
orchestrator (`ChatAPI.sendMessage`), the error classifier (`ErrorHandler`)
and the session controller (`ChatbotContainer`).

Modelling conventions:
* JavaScript strings are Lean `String`s (sequences of characters; UTF-16
  surrogate details are not modelled).
* JavaScript numbers are modelled as `Int` (all values the claims touch are
  integers; float rounding is not modelled).
* `JSON.parse`d values live in the `JValue` universe below; `localStorage`
  is an `Option JValue` (the parsed content of the single storage key),
  since `JSON.parse (JSON.stringify v) = v` for the values involved.
* `uuidv4()` is modelled as an injective fresh-id supply `uuidModel`
  indexed by a counter threaded through the operations.
* `DOMPurify.sanitize` is a third-party library; it is modelled by
  `domPurifyModel` (documented at its definition) and, where a theorem does
  not depend on its behaviour, left as a parameter `purify`.
-/

set_option maxRecDepth 200000

namespace Eme

/-! ## Character classes and basic string machinery (JS semantics) -/

/-- The whitespace class used by JavaScript `trim` and the regex `\s`
(ASCII part plus NBSP and BOM; the rarer Unicode space characters are not
modelled). -/
def isJsSpace (c : Char) : Bool :=
  c = ' ' || c = '\t' || c = '\n' || c = '\r' ||
  c = Char.ofNat 0x0B || c = Char.ofNat 0x0C ||
  c = Char.ofNat 0xA0 || c = Char.ofNat 0xFEFF

/-- The regex word class `\w` = `[A-Za-z0-9_]`. -/
def isWordChar (c : Char) : Bool :=
  ('a' ≤ c && c ≤ 'z') || ('A' ≤ c && c ≤ 'Z') || ('0' ≤ c && c ≤ '9') || c = '_'

/-- JavaScript `String.prototype.trim` on a character list. -/
def listTrim (l : List Char) : List Char :=
  ((l.dropWhile isJsSpace).reverse.dropWhile isJsSpace).reverse

/-- JavaScript `String.prototype.trim`. -/
def jsTrim (s : String) : String :=
  String.mk (listTrim s.data)

/-- JavaScript `str.split('\n')` on a character list (structural, so that
concrete inputs evaluate inside the kernel). -/
def splitLines : List Char → List (List Char)
  | [] => [[]]
  | c :: cs =>
    if c = '\n' then [] :: splitLines cs
    else
      match splitLines cs with
      | [] => [[c]]
      | l :: ls => (c :: l) :: ls

/-- `pat` is a leading segment of `l` (character-exact). -/
def leadsWith : List Char → List Char → Bool
  | [], _ => true
  | _ :: _, [] => false
  | p :: ps, c :: cs => p = c && leadsWith ps cs

/-- `pat` is a leading segment of `l`, comparing case-insensitively
(`pat` is given in lower case). -/
def leadsWithCI : List Char → List Char → Bool
  | [], _ => true
  | _ :: _, [] => false
  | p :: ps, c :: cs => p = c.toLower && leadsWithCI ps cs

/-- `pat` occurs somewhere in `l` (character-exact), as JS
`String.prototype.includes`. -/
def occursIn (pat : List Char) : List Char → Bool
  | [] => leadsWith pat []
  | c :: cs => leadsWith pat (c :: cs) || occursIn pat cs

/-- Some tail of `l` (including `l` itself and `[]`) satisfies `f`. -/
def tailsAny (f : List Char → Bool) : List Char → Bool
  | [] => f []
  | c :: cs => f (c :: cs) || tailsAny f cs

/-- One left-to-right pass of `str.replace(/pat/gi, '')`: every
non-overlapping case-insensitive occurrence of `pat` (given lower-case) is
deleted, scanning resumes after each match.  The `Nat` argument is
structural fuel; callers pass the list length. -/
def removeAllCIAux (pat : List Char) : Nat → List Char → List Char
  | 0, _ => []
  | fuel + 1, l =>
    match l with
    | [] => []
    | c :: cs =>
      if leadsWithCI pat (c :: cs) then
        removeAllCIAux pat fuel ((c :: cs).drop pat.length)
      else
        c :: removeAllCIAux pat fuel cs

/-- `str.replace(/pat/gi, '')` for a non-empty lower-case `pat`. -/
def removeAllCI (pat : String) (s : String) : String :=
  String.mk (removeAllCIAux pat.data s.data.length s.data)

/-! ## `utils/sanitization.ts` -/

/-- A character removed by `sanitizeUserInput`'s control-character strip
(`/[\u0000-\u001F\u007F-\u009F]/g`).  Note this includes `\n` and `\t`. -/
def isStrippedControl (c : Char) : Bool :=
  c.toNat ≤ 0x1F || (0x7F ≤ c.toNat && c.toNat ≤ 0x9F)

/-- Modelled from the spec (§4.1) and the DOMPurify configuration in
`utils/sanitization.ts`: the strict allow-list sanitizer applied to user
input (`DOMPurify.sanitize` with `ALLOWED_TAGS: ['p','br']`,
`ALLOWED_ATTR: []`, `KEEP_CONTENT: true`).  DOMPurify parses the string as
an HTML fragment and re-serializes the sanitized DOM; on input containing
none of `<`, `>`, `&` the string is a single text node and comes back
unchanged.  For other inputs this model strips every `<...>` tag span
(keeping no tags at all, slightly stricter than keeping `p`/`br`) and
re-escapes the remaining text; no theorem below depends on that branch. -/
def domPurifyModel (s : String) : String :=
  if s.data.all (fun c => !(c = '<' || c = '>' || c = '&')) then s
  else String.mk (domPurifyStrip s.data.length s.data)
where
  /-- Tag-stripping fallback branch of the model. -/
  domPurifyStrip : Nat → List Char → List Char
    | 0, _ => []
    | fuel + 1, l =>
      match l with
      | [] => []
      | '<' :: cs => domPurifyStrip fuel ((cs.dropWhile (· ≠ '>')).drop 1)
      | '&' :: cs => '&' :: 'a' :: 'm' :: 'p' :: ';' :: domPurifyStrip fuel cs
      | '>' :: cs => '&' :: 'g' :: 't' :: ';' :: domPurifyStrip fuel cs
      | c :: cs => c :: domPurifyStrip fuel cs

/-- `sanitizeUserInput` (`utils/sanitization.ts`): trim, strip control
characters, delete `javascript:` / `data:` / `vbscript:` (one
case-insensitive global-replace pass each), then the restrictive
DOMPurify pass (`purify` parameter, see `domPurifyModel`). -/
def sanitizeUserInput (purify : String → String) (input : String) : String :=
  if input = "" then ""
  else
    let s1 := jsTrim input
    let s2 := String.mk (s1.data.filter (fun c => !isStrippedControl c))
    let s3 := removeAllCI "javascript:" s2
    let s4 := removeAllCI "data:" s3
    let s5 := removeAllCI "vbscript:" s4
    purify s5

/-- Matcher for `/<script\b[^<]*(?:(?!<\/script>)<[^<]*)*<\/script>/i` on a
lower-cased character list: an opening `<script` with a word boundary,
followed (at distance ≥ 7) by a closing tag. -/
def hasScriptTag (l : List Char) : Bool :=
  tailsAny
    (fun t =>
      leadsWith "<script".data t &&
      (match (t.drop 7).head? with
       | none => true
       | some c => !isWordChar c) &&
      tailsAny (fun u => leadsWith "</script>".data u) (t.drop 7))
    l

/-- Matcher for `/on\w+\s*=/i` on a lower-cased character list. -/
def hasEventHandler (l : List Char) : Bool :=
  tailsAny
    (fun t =>
      match t with
      | 'o' :: 'n' :: rest =>
        let w := rest.takeWhile isWordChar
        !w.isEmpty && ((rest.drop w.length).dropWhile isJsSpace).head? = some '='
      | _ => false)
    l

/-- Matcher for `/<tag\b/i` (used for iframe, object, embed, form) on a
lower-cased character list; `pat` includes the `<`. -/
def hasTagOpen (pat : String) (l : List Char) : Bool :=
  tailsAny
    (fun t =>
      leadsWith pat.data t &&
      (match (t.drop pat.length).head? with
       | none => true
       | some c => !isWordChar c))
    l

/-- Matcher for `/name\s*\(/i` (used for expression, url, import) on a
lower-cased character list. -/
def hasFuncCall (pat : String) (l : List Char) : Bool :=
  tailsAny
    (fun t =>
      leadsWith pat.data t &&
      ((t.drop pat.length).dropWhile isJsSpace).head? = some '(')
    l

/-- `detectXSSPatterns` (`utils/sanitization.ts`): the fixed set of unsafe
content checks.  Each regex is freshly constructed per call in the source,
so the `g` flag's statefulness never shows. -/
def detectXSSPatterns (content : String) : Bool :=
  if content = "" then false
  else
    let l := content.data.map Char.toLower
    hasScriptTag l ||
    occursIn "javascript:".data l ||
    hasEventHandler l ||
    hasTagOpen "<iframe" l ||
    hasTagOpen "<object" l ||
    hasTagOpen "<embed" l ||
    hasTagOpen "<form" l ||
    hasFuncCall "expression" l ||
    hasFuncCall "url" l ||
    hasFuncCall "import" l

/-! ## `services/InputValidator.ts` -/

structure ValidationResult where
  isValid : Bool
  errors : List String
  warnings : List String
  characterCount : Nat
  canSend : Bool
  deriving Repr, DecidableEq

/-- `InputValidator.isEmpty`. -/
def isEmptyInput (input : String) : Bool :=
  input = "" || jsTrim input = ""

/-- `InputValidator.validate` with the configured `maxLength` (default
4000).  The thresholds `Math.floor(maxLength * 0.875)` and
`Math.floor(maxLength * 0.95)` are exact at the default. -/
def validate (maxLength : Nat) (input : String) : ValidationResult :=
  if input = "" then
    ⟨false, ["Input must be a valid string"], [], 0, false⟩
  else
    let warningThreshold := maxLength * 7 / 8
    let criticalThreshold := maxLength * 95 / 100
    let characterCount := input.length
    let errors :=
      (if isEmptyInput input then ["Message cannot be empty"] else []) ++
      (if characterCount > maxLength then
        ["Message exceeds maximum length of " ++ toString maxLength ++ " characters"]
       else []) ++
      (if detectXSSPatterns input then
        ["Message contains potentially unsafe content"] else [])
    let warnings :=
      (if characterCount > maxLength then []
       else if characterCount ≥ criticalThreshold then
        ["Approaching character limit"]
       else if characterCount ≥ warningThreshold then
        ["Character limit warning"]
       else []) ++
      (if hasExcessiveWhitespace input then
        ["Message contains excessive whitespace"] else []) ++
      (if hasVeryLongLines input then
        ["Message contains very long lines that may be difficult to read"] else [])
    let isValid := errors.isEmpty
    ⟨isValid, errors, warnings, characterCount, isValid && !isEmptyInput input⟩
where
  /-- `InputValidator.hasExcessiveWhitespace`: ≥ 4 consecutive whitespace
  characters, ≥ 3 consecutive newlines, or > 30% whitespace. -/
  hasExcessiveWhitespace (input : String) : Bool :=
    tailsAny (fun t => (t.takeWhile isJsSpace).length ≥ 4) input.data ||
    tailsAny (fun t => (t.takeWhile (· = '\n')).length ≥ 3) input.data ||
    10 * (input.data.filter isJsSpace).length > 3 * input.length
  /-- `InputValidator.hasVeryLongLines`: some line longer than 200. -/
  hasVeryLongLines (input : String) : Bool :=
    (splitLines input.data).any (fun line => line.length > 200)

/-- `InputValidator.canSend`. -/
def canSend (maxLength : Nat) (input : String) : Bool :=
  (validate maxLength input).canSend

/-- Fuel-driven collapse of `/[ \t]+/g` runs to a single space. -/
def collapseSpaceTabAux : Nat → List Char → List Char
  | 0, _ => []
  | fuel + 1, l =>
    match l with
    | [] => []
    | c :: cs =>
      if c = ' ' || c = '\t' then
        ' ' :: collapseSpaceTabAux fuel (cs.dropWhile (fun d => d = ' ' || d = '\t'))
      else
        c :: collapseSpaceTabAux fuel cs

/-- Fuel-driven cap of `/\n{3,}/g` runs at two newlines. -/
def capNewlinesAux : Nat → List Char → List Char
  | 0, _ => []
  | fuel + 1, l =>
    match l with
    | [] => []
    | c :: cs =>
      if c = '\n' then
        let run := cs.takeWhile (· = '\n')
        if run.length ≥ 2 then
          '\n' :: '\n' :: capNewlinesAux fuel (cs.drop run.length)
        else
          '\n' :: capNewlinesAux fuel cs
      else
        c :: capNewlinesAux fuel cs

/-- `InputValidator.normalizeWhitespace`: collapse space/tab runs, cap
newline runs at two, trim every line, final trim. -/
def normalizeWhitespace (input : String) : String :=
  let s1 := collapseSpaceTabAux input.data.length input.data
  let s2 := capNewlinesAux s1.length s1
  let s3 := List.intercalate ['\n'] ((splitLines s2).map listTrim)
  String.mk (listTrim s3)

/-- `InputValidator.prepareInput`: sanitize, normalize whitespace, and
truncate to `maxLength` (then trim) as the last-resort safety net. -/
def prepareInput (purify : String → String) (maxLength : Nat) (input : String) : String :=
  if input = "" then ""
  else
    let p1 := sanitizeUserInput purify input
    let p2 := normalizeWhitespace p1
    if p2.length > maxLength then jsTrim (String.mk (p2.data.take maxLength))
    else p2

/-! ## A universe for `JSON.parse`d JavaScript values

All the values crossing the storage and network boundaries are modelled in
`JValue`.  JavaScript numbers are modelled as `Int`; `undefined` never
occurs in parsed JSON and is modelled by `Option.none` at access sites.
All object field lists constructed below are duplicate-free, so first-match
lookup agrees with JS semantics. -/

inductive JValue where
  | jnull
  | jbool (b : Bool)
  | jnum (n : Int)
  | jstr (s : String)
  | jarr (elems : List JValue)
  | jobj (fields : List (String × JValue))

/-- First-match association lookup in an object's field list. -/
def lookupField : List (String × JValue) → String → Option JValue
  | [], _ => none
  | (k, v) :: rest, key => if k = key then some v else lookupField rest key

/-- JS property access `v[key]`: `none` models `undefined` (also for
access on non-objects; access on `null`, which throws in JS, only occurs
below where the exception is caught and noted). -/
def getField : JValue → String → Option JValue
  | .jobj fs, key => lookupField fs key
  | _, _ => none

/-- JS truthiness of a parsed value. -/
def truthy : JValue → Bool
  | .jnull => false
  | .jbool b => b
  | .jnum n => n != 0
  | .jstr s => s ≠ ""
  | .jarr _ => true
  | .jobj _ => true

/-- Truthiness of a possibly-`undefined` value. -/
def truthyOpt : Option JValue → Bool
  | some v => truthy v
  | none => false

/-- `typeof x === 'string'` for a possibly-`undefined` value. -/
def isStrOpt : Option JValue → Bool
  | some (.jstr _) => true
  | _ => false

/-- `typeof x === 'number'` for a possibly-`undefined` value. -/
def isNumOpt : Option JValue → Bool
  | some (.jnum _) => true
  | _ => false

/-- `typeof x === 'object'` for a possibly-`undefined` value (true for
objects, arrays and `null`). -/
def isObjTypeOpt : Option JValue → Bool
  | some (.jobj _) => true
  | some (.jarr _) => true
  | some .jnull => true
  | _ => false

/-! ## Claim C3: `ChatAPI.sendMessage` retry/backoff
(`components/MessageContainer.ts`, class `ChatAPI`) -/

/-- A JavaScript `Error` as thrown/caught around `makeRequest`: its `name`,
`message`, and the `status` bolted on for HTTP failures. -/
structure JsError where
  name : String
  message : String
  status : Option Int
  deriving DecidableEq

/-- The retry loop's client-error test:
`'status' in error && typeof error.status === 'number' && 400 <= status < 500`. -/
def is4xxStatus (e : JsError) : Bool :=
  match e.status with
  | some st => 400 ≤ st && st < 500
  | none => false

/-- What one `makeRequest` attempt does, indexed by attempt number. -/
inductive AttemptResult where
  | ok (response : JValue)
  | err (e : JsError)

/-- Observable outcome of `sendMessage`: the returned/ thrown value, how
many `makeRequest` attempts ran, and the backoff delays awaited. -/
structure SendOutcome where
  result : Except JsError JValue
  attemptsUsed : Nat
  delays : List Nat

/-- The backoff delay awaited after a failed attempt:
`Math.min(1000 * Math.pow(2, attempt - 1), 10000)`. -/
def backoffDelay (attempt : Nat) : Nat :=
  min (1000 * 2 ^ (attempt - 1)) 10000

/-- The fallback error thrown when the loop never ran. -/
def failedAfterRetriesError : JsError :=
  ⟨"Error", "Failed to send message after retries", none⟩

/-- The retry loop of `ChatAPI.sendMessage`, one step per attempt.  `fuel`
is `maxRetries - attempt + 1` (the remaining loop iterations); an
`AbortError` or a 4xx status (including 429) is rethrown immediately, any
other failure is retried after `backoffDelay attempt` (no delay after the
final attempt). -/
def sendAux (outcomes : Nat → AttemptResult) (maxRetries : Nat) :
    Nat → Nat → Option JsError → List Nat → SendOutcome
  | 0, attempt, lastErr, delays =>
    ⟨.error (lastErr.getD failedAfterRetriesError), attempt - 1, delays⟩
  | fuel + 1, attempt, lastErr, delays =>
    match outcomes attempt with
    | .ok r => ⟨.ok r, attempt, delays⟩
    | .err e =>
      if e.name = "AbortError" then ⟨.error e, attempt, delays⟩
      else if is4xxStatus e then ⟨.error e, attempt, delays⟩
      else if attempt < maxRetries then
        sendAux outcomes maxRetries fuel (attempt + 1) (some e)
          (delays ++ [backoffDelay attempt])
      else sendAux outcomes maxRetries fuel (attempt + 1) (some e) delays

/-- `ChatAPI.sendMessage` with the configured `maxRetries`, given the
per-attempt outcomes.  (The initial abort of any pending request belongs to
the cancellation model for C5 and does not affect the retry loop.) -/
def sendMessage (outcomes : Nat → AttemptResult) (maxRetries : Nat) : SendOutcome :=
  sendAux outcomes maxRetries maxRetries 1 none []

/-! ## Claim C7: response-shape validation and its classification
(`ChatAPI.isValidResponse` / `ChatAPI.makeRequest` in
`components/MessageContainer.ts`, `ErrorHandler.createErrorState` in
`services/ErrorHandler.ts`) -/

/-- `ChatAPI.isValidResponse`: the parsed body must be a non-null object
with a string `response`, string `requestId`, numeric `processingTime` and
object-typed `metadata` (note `typeof null === 'object'` also accepts a
null `metadata`). -/
def isValidResponse (data : JValue) : Bool :=
  (match data with
   | .jobj _ => true
   | .jarr _ => true
   | _ => false) &&
  isStrOpt (getField data "response") &&
  isStrOpt (getField data "requestId") &&
  isNumOpt (getField data "processingTime") &&
  isObjTypeOpt (getField data "metadata")

/-- The error thrown by `makeRequest` when the body fails
`isValidResponse`. -/
def invalidResponseError : JsError :=
  ⟨"Error", "Invalid response format from server", none⟩

/-- The post-parse step of `ChatAPI.makeRequest` on a 200 response body:
a structurally invalid body is rejected by throwing
`invalidResponseError`. -/
def processResponseBody (data : JValue) : Except JsError JValue :=
  if isValidResponse data then .ok data else .error invalidResponseError

/-- The closed error taxonomy of `ErrorHandler` (`ErrorType` in
`types/interfaces.ts`). -/
inductive ErrType where
  | network
  | timeout
  | server
  | validation
  | storage
  deriving DecidableEq

/-- `ErrorState` as produced by `ErrorHandler.createErrorState`
(`originalRequest` is always `undefined` there and omitted). -/
structure ErrorState where
  etype : ErrType
  message : String
  code : Option String
  timestamp : Int
  retryable : Bool
  deriving DecidableEq

/-- Case-sensitive JS `String.prototype.includes`. -/
def strIncludes (sub : String) (s : String) : Bool :=
  occursIn sub.data s.data

/-- `ErrorHandler.createErrorState` restricted to inputs that are
JavaScript `Error`s (every error the claims exercise is one): the chain of
name/substring/status checks, in source order.  Substring checks are
case-sensitive, exactly as `String.prototype.includes`. -/
def createErrorState (now : Int) (e : JsError) : ErrorState :=
  if e.name = "AbortError" then
    ⟨.network, "Requ" ++ "ête annul" ++ "ée", none, now, false⟩
  else if strIncludes "timeout" e.message || strIncludes "Request timeout" e.message then
    ⟨.timeout, "La demande a pris trop de temps", none, now, true⟩
  else if strIncludes "Network error" e.message || strIncludes "fetch" e.message then
    ⟨.network, "Probl" ++ "ème de connexion r" ++ "éseau", none, now, true⟩
  else if strIncludes "validation" e.message || strIncludes "invalid" e.message then
    ⟨.validation, "Donn" ++ "ées invalides", none, now, false⟩
  else if strIncludes "storage" e.message || strIncludes "localStorage" e.message then
    ⟨.storage, "Erreur de stockage local", none, now, false⟩
  else
    match e.status with
    | some st =>
      if 400 ≤ st ∧ st < 500 then
        if st = 429 then
          ⟨.server, "Trop de demandes, veuillez patienter", some (toString st), now, true⟩
        else
          ⟨.server, "Erreur de requ" ++ "ête", some (toString st), now, false⟩
      else if 500 ≤ st then
        ⟨.server, "Erreur du serveur EME", some (toString st), now, true⟩
      else
        ⟨.server, e.message, some (toString st), now, true⟩
    | none => ⟨.network, e.message, none, now, true⟩

/-- C7 holds when a message lacks one of the four required typed fields. -/
def missingRequiredField (data : JValue) : Prop :=
  (∀ s, getField data "response" ≠ some (.jstr s)) ∨
  (∀ s, getField data "requestId" ≠ some (.jstr s)) ∨
  (∀ n, getField data "processingTime" ≠ some (.jnum n)) ∨
  isObjTypeOpt (getField data "metadata") = false

/-! ## Claim C10: the error log is bounded at 100 entries
(`ErrorHandler.logError` and its callers, `services/ErrorHandler.ts`) -/

/-- `ErrorHandler.logError`: append, then truncate to the most recent
`maxLogSize = 100` entries (`errorLog.slice(-100)`). -/
def logError (log : List ErrorState) (e : ErrorState) : List ErrorState :=
  let l := log ++ [e]
  if l.length > 100 then l.drop (l.length - 100) else l

/-- The error-log states reachable through the `ErrorHandler` API: a fresh
handler, each of the four logging entry points (`handleChatError`,
`handleValidationError`, `handleStorageError`, and `handleConnectivityError`
when offline — all of which append through `logError`), and
`clearErrorLog`. -/
inductive ReachableLog : List ErrorState → Prop where
  | init : ReachableLog []
  | chatError (log : List ErrorState) (now : Int) (e : JsError) :
      ReachableLog log → ReachableLog (logError log (createErrorState now e))
  | validationError (log : List ErrorState) (e : ErrorState) :
      ReachableLog log → ReachableLog (logError log e)
  | storageError (log : List ErrorState) (e : ErrorState) :
      ReachableLog log → ReachableLog (logError log e)
  | connectivityError (log : List ErrorState) (e : ErrorState) :
      ReachableLog log → ReachableLog (logError log e)
  | clear (log : List ErrorState) : ReachableLog log → ReachableLog []

/-! ## The session store (`StorageManager` in the specifications document,
`utils/sanitization.ts` for validation/sanitization of stored data)

`localStorage` under the single key `eme-chatbot-session` is modelled as an
`Option JValue` holding the parsed stored record (`JSON.parse` after
`JSON.stringify` is the identity on these values, and `setItem` is modelled
as always succeeding — the claims under scrutiny assume no I/O failure).
`Date.now()` values and fresh uuids are passed in as parameters. -/

/-- `uuidv4()` modelled as an injective fresh-id supply: call number `n`
yields a nonempty identifier distinct from every other call's. -/
def uuidModel (n : Nat) : String :=
  String.mk (List.replicate (n + 1) 'u')

/-- A chat message as constructed by the application (`ChatMessage` in
`types/interfaces.ts`): `id`, `timestamp`, `role`, `content`, and an
optional `metadata` object kept abstract as a `JValue`. -/
structure ChatMessage where
  id : String
  timestamp : Int
  role : String
  content : String
  metadata : Option JValue

/-- The in-memory `ChatState` (`types/interfaces.ts`); `userPreferences`
is kept abstract as a `JValue`. -/
structure ChatState where
  messages : List ChatMessage
  sessionId : String
  lastActivity : Int
  version : String
  userPreferences : JValue

/-- The JSON object `JSON.stringify` produces for a message: literal key
order, with the `metadata` key dropped when the field is `undefined`. -/
def encodeMsg (m : ChatMessage) : JValue :=
  .jobj ([("id", .jstr m.id), ("timestamp", .jnum m.timestamp),
          ("role", .jstr m.role), ("content", .jstr m.content)] ++
    (match m.metadata with
     | some j => [("metadata", j)]
     | none => []))

/-- `validateStorageData`'s per-message check: in JS, a non-object message
makes the `!message.id` test see `undefined` (falsy) — or throws for
`null`, caught by the surrounding `try` — so any non-object yields
`false`. -/
def validMessage (m : JValue) : Bool :=
  match m with
  | .jobj _ =>
    truthyOpt (getField m "id") && truthyOpt (getField m "timestamp") &&
    truthyOpt (getField m "role") && isStrOpt (getField m "content")
  | _ => false

/-- `validateStorageData` (`utils/sanitization.ts`): the record must be a
truthy object (`'field' in data` is `false` on arrays, so only plain
objects pass), contain the keys `version`, `sessionId` and `messages`,
with `messages` an array of structurally valid messages. -/
def validateStorageData (data : JValue) : Bool :=
  match data with
  | .jobj fs =>
    (lookupField fs "version").isSome &&
    (lookupField fs "sessionId").isSome &&
    (lookupField fs "messages").isSome &&
    (match lookupField fs "messages" with
     | some (.jarr ms) => ms.all validMessage
     | _ => false)
  | _ => false

/-- Object spread with one overridden key, `{...data, key: v}`: an
existing key is replaced in place (its position kept), a new key is
appended. -/
def setField (fs : List (String × JValue)) (key : String) (v : JValue) :
    List (String × JValue) :=
  if fs.any (fun kv => kv.1 = key) then
    fs.map (fun kv => if kv.1 = key then (key, v) else kv)
  else fs ++ [(key, v)]

/-- The per-message part of `sanitizeStorageData`:
`{...message, content: sanitizeUserInput(message.content)}`.
`sanitizeUserInput` returns `""` on non-string input.  (A non-object
message would spread to its enumerable own properties; callers only pass
message objects.) -/
def sanitizeMessage (purify : String → String) (m : JValue) : JValue :=
  let fields := match m with | .jobj fs => fs | _ => []
  .jobj (setField fields "content"
    (.jstr (match getField m "content" with
            | some (.jstr s) => sanitizeUserInput purify s
            | _ => "")))

/-- `sanitizeStorageData` (`utils/sanitization.ts`): `null` for non-object
input; otherwise the record with `messages` replaced by
`data.messages?.map(sanitize) || []`.  A truthy non-array `messages` makes
`.map` throw, caught to `null`.  (An array-valued `data` would spread to
index keys in JS; the only caller always passes a plain object.) -/
def sanitizeStorageData (purify : String → String) (data : JValue) : Option JValue :=
  match data with
  | .jobj fs =>
    match lookupField fs "messages" with
    | none => some (.jobj (setField fs "messages" (.jarr [])))
    | some .jnull => some (.jobj (setField fs "messages" (.jarr [])))
    | some (.jarr ms) =>
      some (.jobj (setField fs "messages" (.jarr (ms.map (sanitizeMessage purify)))))
    | some _ => none
  | _ => none

/-- `content.length` of a stored message, with `msg.content?.length || 0`
semantics (`0` for non-strings; on the `cleanOldMessages` path contents
are always strings after sanitization). -/
def contentLen (m : JValue) : Int :=
  match getField m "content" with
  | some (.jstr s) => (s.length : Int)
  | _ => 0

/-- `StorageManager.calculateAverageResponseTime`: response times of
adjacent user→assistant pairs within (0, 60000) ms. -/
def responseTimes : List ChatMessage → List Int
  | m1 :: m2 :: rest =>
    (if m1.role = "user" ∧ m2.role = "assistant" ∧
        0 < m2.timestamp - m1.timestamp ∧ m2.timestamp - m1.timestamp < 60000
     then [m2.timestamp - m1.timestamp] else []) ++ responseTimes (m2 :: rest)
  | _ => []

/-- Average of the collected response times (0 when none; JS float
division modelled as integer division — the exact value is irrelevant to
every claim). -/
def calculateAverageResponseTime (messages : List ChatMessage) : Int :=
  let ts := responseTimes messages
  if ts.isEmpty then 0 else ts.sum / (ts.length : Int)

/-- The `StoredChatData` object literal built by `StorageManager.saveChat`
(literal key order); `created` is the previously stored record's truthy
`created` or `Date.now()`. -/
def buildStoredData (state : ChatState) (store : Option JValue) (now : Int) : JValue :=
  let created : JValue :=
    match store with
    | some v =>
      match getField v "created" with
      | some c => if truthy c then c else .jnum now
      | none => .jnum now
    | none => .jnum now
  .jobj [("version", .jstr "1.0"),
         ("sessionId", .jstr state.sessionId),
         ("created", created),
         ("lastModified", .jnum now),
         ("messages", .jarr (state.messages.map encodeMsg)),
         ("userPreferences", state.userPreferences),
         ("metadata", .jobj
           [("totalMessages", .jnum (state.messages.length : Int)),
            ("totalCharacters", .jnum
              ((state.messages.map (fun m => (m.content.length : Int))).sum)),
            ("averageResponseTime", .jnum (calculateAverageResponseTime state.messages))])]

/-- A hexadecimal digit (lower case, as `JSON.stringify` uses). -/
def hexDigit (n : Nat) : Char :=
  if n < 10 then Char.ofNat ('0'.toNat + n) else Char.ofNat ('a'.toNat + n - 10)

/-- `JSON.stringify` escaping of one string character. -/
def jsonEscapeChar (c : Char) : List Char :=
  if c = '"' then ['\\', '"']
  else if c = '\\' then ['\\', '\\']
  else if c = '\x08' then ['\\', 'b']
  else if c = '\x09' then ['\\', 't']
  else if c = '\n' then ['\\', 'n']
  else if c = '\x0c' then ['\\', 'f']
  else if c = '\x0d' then ['\\', 'r']
  else if c.toNat < 0x20 then
    ['\\', 'u', '0', '0', hexDigit (c.toNat / 16), hexDigit (c.toNat % 16)]
  else [c]

/-- `JSON.stringify` of a string literal, quotes included. -/
def jsonQuote (s : String) : String :=
  String.mk ('"' :: (s.data.foldr (fun c acc => jsonEscapeChar c ++ acc) ['"']))

/-- `JSON.stringify` (no spacing), with structural depth fuel so that
concrete values evaluate in the kernel; every record this development
serializes has depth well under the fuel passed by `jsonStringify`. -/
def jsonStringifyAux : Nat → JValue → String
  | 0, _ => ""
  | fuel + 1, v =>
    match v with
    | .jnull => "null"
    | .jbool true => "true"
    | .jbool false => "false"
    | .jnum n => toString n
    | .jstr s => jsonQuote s
    | .jarr xs =>
      "[" ++ String.intercalate "," (xs.map (jsonStringifyAux fuel)) ++ "]"
    | .jobj fs =>
      String.singleton (Char.ofNat 123) ++
        String.intercalate ","
          (fs.map (fun kv => jsonQuote kv.1 ++ ":" ++ jsonStringifyAux fuel kv.2)) ++
        String.singleton (Char.ofNat 125)

/-- `JSON.stringify` with a generous depth bound. -/
def jsonStringify (v : JValue) : String :=
  jsonStringifyAux 1000 v

/-- `StorageManager.cleanOldMessages`: keep the most recent 50 messages
and recompute the two message summary fields in `metadata`. -/
def cleanOldMessages (data : JValue) : JValue :=
  match data with
  | .jobj fs =>
    let ms := match lookupField fs "messages" with | some (.jarr l) => l | _ => []
    let ms' := if ms.length > 50 then ms.drop (ms.length - 50) else ms
    let fs1 := setField fs "messages" (.jarr ms')
    let md := match lookupField fs1 "metadata" with | some (.jobj mfs) => mfs | _ => []
    let md1 := setField (setField md "totalMessages" (.jnum (ms'.length : Int)))
      "totalCharacters" (.jnum (ms'.map contentLen).sum)
    .jobj (setField fs1 "metadata" (.jobj md1))
  | _ => data

/-- `StorageManager.saveChat`: build the record, sanitize it (failure
returns `false` and leaves the store alone), evict old messages if the
serialized form exceeds the 5 MB cap, then write.  Returns the new store
content and the boolean result. -/
def saveChat (purify : String → String) (state : ChatState) (store : Option JValue)
    (now : Int) : Option JValue × Bool :=
  match sanitizeStorageData purify (buildStoredData state store now) with
  | none => (store, false)
  | some sd =>
    let sd' := if (jsonStringify sd).length > 5 * 1024 * 1024 then cleanOldMessages sd else sd
    (some sd', true)

/-- `StorageManager.getDefaultPreferences` (`animationsEnabled` observes a
reduced-motion media query; modelled as no reduced-motion). -/
def getDefaultPreferences : JValue :=
  .jobj [("theme", .jstr "light"), ("fontSize", .jstr "medium"),
         ("autoScroll", .jbool true), ("soundEnabled", .jbool false),
         ("animationsEnabled", .jbool true), ("language", .jstr "fr"),
         ("accessibilityMode", .jbool false)]

/-- The rewrite `migrateData` performs on a record whose `version` is
absent (or falsy): current version, existing-or-fresh `sessionId` and
`created`, `messages || []`, existing-or-default preferences, recomputed
summary metadata.  (A truthy non-array `messages` would make the JS
`.reduce` throw, but `validateStorageData` has already ensured an array on
every path that reaches migration.) -/
def migrateLegacy (data : JValue) (now : Int) (fresh : String) : JValue :=
  let ms := match getField data "messages" with | some (.jarr l) => l | _ => []
  .jobj [("version", .jstr "1.0"),
         ("sessionId",
           match getField data "sessionId" with
           | some v => if truthy v then v else .jstr fresh
           | none => .jstr fresh),
         ("created",
           match getField data "created" with
           | some v => if truthy v then v else .jnum now
           | none => .jnum now),
         ("lastModified", .jnum now),
         ("messages", .jarr ms),
         ("userPreferences",
           match getField data "userPreferences" with
           | some v => if truthy v then v else getDefaultPreferences
           | none => getDefaultPreferences),
         ("metadata", .jobj
           [("totalMessages", .jnum (ms.length : Int)),
            ("totalCharacters", .jnum (ms.map contentLen).sum),
            ("averageResponseTime", .jnum 0)])]

/-- `StorageManager.migrateData`: triggered when `version` is falsy or not
strictly equal to the current `'1.0'`; only the falsy case rewrites the
record (`migrateLegacy`), a truthy different version is left as-is; in
either triggered case the (possibly unchanged) record is re-persisted via
`setItem`.  Returns the record `migrateData` returns together with the
store content afterwards. -/
def migrateData (store : Option JValue) (data : JValue) (now : Int) (fresh : String) :
    JValue × Option JValue :=
  let isCurrent : Bool :=
    match getField data "version" with
    | some (.jstr s) => s = "1.0"
    | _ => false
  if isCurrent then (data, store)
  else
    let data' := if truthyOpt (getField data "version") then data
                 else migrateLegacy data now fresh
    (data', some data')

/-- `StorageManager.clearChat`: remove the stored record. -/
def clearChat (_store : Option JValue) : Option JValue := none

/-- The `ChatState` object literal `loadChat` returns: raw stored values
with truthy-or-default fallbacks. -/
structure LoadedChatState where
  messages : List JValue
  sessionId : JValue
  lastActivity : JValue
  version : String
  userPreferences : JValue

/-- `StorageManager.loadChat`: `null` when nothing is stored; a record
failing `validateStorageData` clears the store and yields `null`;
otherwise the record is migrated if needed and returned.  Returns the
store content afterwards together with the result.  (A `JSON.parse`
failure takes the same clear-and-null path; the store holds parsed values
in this model.) -/
def loadChat (store : Option JValue) (now : Int) (fresh : String) :
    Option JValue × Option LoadedChatState :=
  match store with
  | none => (none, none)
  | some data =>
    if validateStorageData data then
      let md := migrateData store data now fresh
      (md.2, some
        { messages := match getField md.1 "messages" with | some (.jarr l) => l | _ => []
          sessionId :=
            match getField md.1 "sessionId" with
            | some v => if truthy v then v else .jstr fresh
            | none => .jstr fresh
          lastActivity :=
            match getField md.1 "lastModified" with
            | some v => if truthy v then v else .jnum now
            | none => .jnum now
          version := "1.0"
          userPreferences :=
            match getField md.1 "userPreferences" with
            | some v => if truthy v then v else getDefaultPreferences
            | none => getDefaultPreferences })
    else (none, none)

/-- `StorageManager.createInitialState`: empty messages, fresh session id,
current version and default preferences. -/
def createInitialState (n : Nat) (now : Int) : ChatState :=
  { messages := [], sessionId := uuidModel n, lastActivity := now,
    version := "1.0", userPreferences := getDefaultPreferences }

/-- A stored message object lacking one of the fields the spec requires
(`id`, `timestamp`, `role`, string `content`); non-object "messages" lack
all of them. -/
def messageLacksField (m : JValue) : Prop :=
  getField m "id" = none ∨ getField m "timestamp" = none ∨
  getField m "role" = none ∨ (∀ s, getField m "content" ≠ some (.jstr s))

/-- A malformed stored record in the sense of claim C6: missing `version`,
`sessionId` or `messages`, `messages` not a sequence, or some message
lacking a required field. -/
def malformedRecord (data : JValue) : Prop :=
  getField data "version" = none ∨ getField data "sessionId" = none ∨
  (∀ ms, getField data "messages" ≠ some (.jarr ms)) ∨
  (∃ ms, getField data "messages" = some (.jarr ms) ∧ ∃ m ∈ ms, messageLacksField m)

/-! ## The session controller (`ChatbotContainer` in
`components/ChatbotContainer.ts`)

The controller state carries the in-memory `chatState` pieces the claims
observe (`messages`, `sessionId`, `lastActivity`), the `isLoading` gate,
the outstanding request (the message text handed to `ChatAPI.sendMessage`,
if any), and the fresh-id supply counter for `uuidv4()`.  `Date.now()` is
passed in at each step. -/

structure ControllerState where
  messages : List ChatMessage
  sessionId : String
  lastActivity : Int
  isLoading : Bool
  pending : Option String
  supply : Nat

/-- The first half of `ChatbotContainer.handleUserMessage`, up to the
`await`: a blank message or `isLoading` returns immediately with no state
change; otherwise the trimmed user message is appended, loading is set and
the request goes out.  (The `saveChat` call inside `addMessage` touches
only the store, which this claim does not mention, and is omitted
here.) -/
def handleUserMessageSubmit (text : String) (now : Int) (s : ControllerState) :
    ControllerState :=
  if jsTrim text = "" || s.isLoading then s
  else
    { s with
      messages := s.messages ++ [⟨uuidModel s.supply, now, "user", jsTrim text, none⟩],
      lastActivity := now,
      isLoading := true,
      pending := some (jsTrim text),
      supply := s.supply + 1 }

/-- A successful `ChatAPIResponse` as the resolution path consumes it
(the optional `sources` array is omitted; it only feeds the metadata
blob). -/
structure ChatResponseR where
  response : String
  requestId : String
  processingTime : Int
  confidence : Int

/-- The resumption of `handleUserMessage` when the outstanding request
resolves successfully: the assistant message (with response metadata) is
appended and loading cleared.  With no request outstanding there is
nothing to resume. -/
def handleUserMessageResolve (r : ChatResponseR) (now : Int) (s : ControllerState) :
    ControllerState :=
  match s.pending with
  | none => s
  | some _ =>
    { s with
      messages := s.messages ++
        [⟨uuidModel s.supply, now, "assistant", r.response,
          some (.jobj [("requestId", .jstr r.requestId),
                       ("processingTime", .jnum r.processingTime),
                       ("confidence", .jnum r.confidence)])⟩],
      lastActivity := now,
      isLoading := false,
      pending := none,
      supply := s.supply + 1 }

/-- The welcome message content `showWelcomeMessage` appends (apostrophes
written as `\x27`). -/
def welcomeContent : String :=
  "Bonjour ! Je suis l\x27assistant numérique d\x27Extended Monaco Entreprises (EME).\n\nJe peux vous aider avec :\n• **Diagnostics de maturité numérique** - Évaluez la maturité digitale de votre entreprise\n• **Annuaire professionnel** - Trouvez des prestataires certifiés\n• **Opportunités de financement** - Découvrez les aides disponibles\n• **FlashLearn IA 2026** - Informations sur notre programme d\x27intégration IA\n\nComment puis-je vous aider aujourd\x27hui ?"

/-- `ChatbotContainer.handleClearChat` (confirmed path): clear the durable
store, reset `chatState` via `createInitialState` (fresh session id), then
`showWelcomeMessage` appends a welcome assistant message through
`addMessage`, which also persists the new state via `saveChat`.  Returns
the controller state and the store afterwards. -/
def handleClearChat (purify : String → String) (s : ControllerState)
    (store : Option JValue) (now : Int) (confirmed : Bool) :
    ControllerState × Option JValue :=
  if confirmed then
    let store1 := clearChat store
    let init := createInitialState s.supply now
    let welcome : ChatMessage := ⟨uuidModel (s.supply + 1), now, "assistant",
      welcomeContent, none⟩
    let chat2 : ChatState := { init with messages := [welcome], lastActivity := now }
    let saved := saveChat purify chat2 store1 now
    ({ messages := chat2.messages, sessionId := chat2.sessionId, lastActivity := now,
       isLoading := s.isLoading, pending := s.pending, supply := s.supply + 2 },
      saved.1)
  else (s, store)

/-! ## Theorems settling the claims -/

/-! ## Claims C1 and C2: the validation boundary -/

/-- Trimming never lengthens a character list. -/
theorem listTrim_length_le (l : List Char) : (listTrim l).length ≤ l.length := by
  unfold listTrim
  have h1 :=
    (List.dropWhile_sublist (l := (l.dropWhile isJsSpace).reverse) (p := isJsSpace)).length_le
  have h2 := (List.dropWhile_sublist (l := l) (p := isJsSpace)).length_le
  simp only [List.length_reverse] at h1 ⊢
  omega

/-- The length of a string built from a character list. -/
theorem length_mk_data (l : List Char) : (String.mk l).length = l.length := rfl

/-- C1, amended: for every input `s` with `length s ≤ 4000` (in fact for
every `s`, and for every DOMPurify behaviour `purify`), the prepared output
`prepareInput(s)` has length ≤ 4000; the unsafe-content freedom claimed for
the output does not hold (see `c1_counterexample`). -/
theorem c1_prepareInput_length_le (purify : String → String) (s : String)
    (h : s.length ≤ 4000) : (prepareInput purify 4000 s).length ≤ 4000 := by
  clear h
  simp only [prepareInput]
  split
  · simp [String.length]
  · split
    · rename_i hgt
      set p2 := normalizeWhitespace (sanitizeUserInput purify s) with hp2
      have h1 : (jsTrim (String.mk (p2.data.take 4000))).length
          ≤ (String.mk (p2.data.take 4000)).length := by
        simpa [jsTrim, length_mk_data] using
          listTrim_length_le (String.mk (p2.data.take 4000)).data
      have h2 : (String.mk (p2.data.take 4000)).length ≤ 4000 := by
        simp [length_mk_data]
      omega
    · omega

/-- C1, witness for the amended claim at the concrete input "Bonjour" with
the modelled DOMPurify. -/
theorem c1_prepareInput_length_le_witness :
    ("Bonjour" : String).length ≤ 4000 ∧
      (prepareInput domPurifyModel 4000 "Bonjour").length ≤ 4000 :=
  ⟨by decide, c1_prepareInput_length_le domPurifyModel "Bonjour" (by decide)⟩

/-- C1, counterexample to the claim as stated: the four-character input
"url(" is well under the 4000 limit, passes through `prepareInput`
verbatim (it is plain text, so even DOMPurify leaves it alone), yet
`detectXSSPatterns` flags the output because of the `url\s*\(` pattern. -/
theorem c1_counterexample :
    ("url(" : String).length ≤ 4000 ∧
      prepareInput domPurifyModel 4000 "url(" = "url(" ∧
      detectXSSPatterns (prepareInput domPurifyModel 4000 "url(") = true := by
  refine ⟨by decide, by decide, by decide⟩

/-- A string is empty iff it has no characters. -/
theorem string_length_eq_zero_iff (s : String) : s.length = 0 ↔ s = "" := by
  constructor
  · intro h
    cases s with
    | mk data =>
      cases data with
      | nil => rfl
      | cons c cs => simp [String.length] at h
  · intro h; subst h; rfl

/-- C2, confirmed: `validate(s).canSend` is true exactly when the trimmed
input is non-empty, the (untrimmed) length is at most 4000, and no
unsafe-content pattern matches `s`. -/
theorem c2_canSend_iff (input : String) :
    (validate 4000 input).canSend = true ↔
      (0 < (jsTrim input).length ∧ input.length ≤ 4000 ∧
        detectXSSPatterns input = false) := by
  by_cases h0 : input = ""
  · subst h0
    simp [validate, jsTrim, listTrim]
  · have hlen : 0 < (jsTrim input).length ↔ ¬ jsTrim input = "" := by
      rw [← string_length_eq_zero_iff]
      omega
    by_cases he : jsTrim input = "" <;>
      by_cases hl : input.length > 4000 <;>
        by_cases hx : detectXSSPatterns input <;>
          simp [validate, isEmptyInput, h0, he, hl, hx, hlen] <;> omega

/-- When every attempt fails with the same retryable error, the loop runs
all `maxRetries` attempts and waits `backoffDelay attempt` between
consecutive ones.  (`fuel` invariant: `attempt + fuel = maxRetries + 1`.) -/
theorem sendAux_allfail (e : JsError) (hname : e.name ≠ "AbortError")
    (h4 : is4xxStatus e = false) (maxRetries : Nat) :
    ∀ fuel attempt lastErr delays, attempt + fuel = maxRetries + 1 → 1 ≤ fuel →
      sendAux (fun _ => .err e) maxRetries fuel attempt lastErr delays =
        ⟨.error e, maxRetries,
          delays ++ (List.range (maxRetries - attempt)).map
            (fun i => backoffDelay (attempt + i))⟩ := by
  intro fuel
  induction fuel with
  | zero => intro attempt lastErr delays _ h1; omega
  | succ f ih =>
    intro attempt lastErr delays hsum _
    by_cases hlast : attempt < maxRetries
    · have hf : 1 ≤ f := by omega
      simp only [sendAux, hname, h4, hlast, if_true, if_false, ite_true, ite_false,
        Bool.false_eq_true, reduceIte]
      rw [ih (attempt + 1) (some e) (delays ++ [backoffDelay attempt]) (by omega) hf]
      have hrange : maxRetries - attempt = (maxRetries - (attempt + 1)) + 1 := by omega
      rw [hrange, List.range_succ_eq_map]
      simp only [List.map_cons, List.map_map, List.append_assoc, List.singleton_append,
        Nat.add_zero, Function.comp]
      congr 3
      refine List.map_congr_left ?_
      intro a _
      simp [Function.comp]
      congr 1
      omega
    · have hatt : attempt = maxRetries := by omega
      have hf : f = 0 := by omega
      subst hatt hf
      simp [sendAux, hname, h4]

/-- C3, amended: transient failures — timeouts, network errors and 5xx
responses (any error that is not an `AbortError` and has no 4xx status) —
are retried up to `maxRetries` attempts with exponential backoff
`min(1000 * 2^(attempt-1), 10000)`, the delays nondecreasing and strictly
increasing except at the 10 s cap; every HTTP 4xx status *including 429*
fails on the first attempt with no retry and no delay (the code's 4xx test
does not special-case 429). -/
theorem c3_retry_backoff (n : Nat) (hn : 1 ≤ n) :
    (∀ e : JsError, e.name ≠ "AbortError" → is4xxStatus e = false →
      sendMessage (fun _ => .err e) n =
        ⟨.error e, n, (List.range (n - 1)).map (fun i => backoffDelay (1 + i))⟩) ∧
    (∀ a, 1 ≤ a → backoffDelay a ≤ backoffDelay (a + 1) ∧
      (backoffDelay (a + 1) = 10000 ∨ backoffDelay a < backoffDelay (a + 1))) ∧
    (∀ e : JsError, e.name ≠ "AbortError" → is4xxStatus e = true →
      sendMessage (fun _ => .err e) n = ⟨.error e, 1, []⟩) := by
  refine ⟨?_, ?_, ?_⟩
  · intro e hname h4
    unfold sendMessage
    rw [sendAux_allfail e hname h4 n n 1 none [] (by omega) hn]
    simp
  · intro a ha
    have hpow : 1000 * 2 ^ (a - 1) < 1000 * 2 ^ a := by
      have : (2 : Nat) ^ (a - 1) < 2 ^ a :=
        Nat.pow_lt_pow_right (by norm_num) (by omega)
      omega
    have hstep : backoffDelay (a + 1) = min (1000 * 2 ^ a) 10000 := by
      simp [backoffDelay]
    constructor
    · rw [hstep]
      unfold backoffDelay
      exact min_le_min (le_of_lt hpow) le_rfl
    · by_cases hcap : 1000 * 2 ^ a < 10000
      · right
        rw [hstep, Nat.min_eq_left (le_of_lt hcap)]
        unfold backoffDelay
        calc min (1000 * 2 ^ (a - 1)) 10000 ≤ 1000 * 2 ^ (a - 1) := Nat.min_le_left _ _
          _ < 1000 * 2 ^ a := hpow
      · left
        rw [hstep, Nat.min_eq_right (by omega)]
  · intro e hname h4
    obtain ⟨m, rfl⟩ : ∃ m, n = m + 1 := ⟨n - 1, by omega⟩
    simp [sendMessage, sendAux, hname, h4]

/-- C3, witness for the amended claim: with the default `maxRetries = 3`, a
permanent 503 is attempted 3 times with delays 1000 ms then 2000 ms, and a
404 (or a 429) fails on the first attempt. -/
theorem c3_retry_backoff_witness :
    1 ≤ 3 ∧
      (sendMessage (fun _ => .err ⟨"Error", "HTTP 503", some 503⟩) 3 =
          ⟨.error ⟨"Error", "HTTP 503", some 503⟩, 3, [1000, 2000]⟩ ∧
        sendMessage (fun _ => .err ⟨"Error", "HTTP 404", some 404⟩) 3 =
          ⟨.error ⟨"Error", "HTTP 404", some 404⟩, 1, []⟩) := by
  have h := c3_retry_backoff 3 (by decide)
  refine ⟨by decide, ?_, h.2.2 ⟨"Error", "HTTP 404", some 404⟩ (by decide) (by decide)⟩
  have h503 := h.1 ⟨"Error", "HTTP 503", some 503⟩ (by decide) (by decide)
  simpa [List.range, backoffDelay] using h503

/-- C3, counterexample to the claim as stated: HTTP 429 is *not* retried —
with `maxRetries = 3` and the server always answering 429, `sendMessage`
makes exactly one attempt and waits no delay, because the code rethrows
every 4xx (including 429) immediately. -/
theorem c3_counterexample :
    (sendMessage (fun _ => .err ⟨"Error", "HTTP 429", some 429⟩) 3).attemptsUsed = 1 ∧
      (sendMessage (fun _ => .err ⟨"Error", "HTTP 429", some 429⟩) 3).delays = [] := by
  refine ⟨rfl, rfl⟩

/-- C7, amended: a body missing any required field is rejected (never
accepted), but the resulting failure is classified as a **network**
failure (the classifier's conservative default, retryable), not as a
`server` failure: the thrown message "Invalid response format from server"
matches none of the classifier's case-sensitive substring checks and
carries no HTTP status. -/
theorem c7_invalid_response_rejected (data : JValue) (now : Int)
    (h : missingRequiredField data) :
    isValidResponse data = false ∧
      processResponseBody data = .error invalidResponseError ∧
      (createErrorState now invalidResponseError).etype = .network ∧
      (createErrorState now invalidResponseError).retryable = true := by
  have hv : isValidResponse data = false := by
    rcases h with h | h | h | h
    · rcases hfield : getField data "response" with _ | v
      · simp [isValidResponse, hfield, isStrOpt]
      · cases v <;> first
          | (exact absurd hfield (h _))
          | simp [isValidResponse, hfield, isStrOpt]
    · rcases hfield : getField data "requestId" with _ | v
      · simp [isValidResponse, hfield, isStrOpt]
      · cases v <;> first
          | (exact absurd hfield (h _))
          | simp [isValidResponse, hfield, isStrOpt]
    · rcases hfield : getField data "processingTime" with _ | v
      · simp [isValidResponse, hfield, isNumOpt]
      · cases v <;> first
          | (exact absurd hfield (h _))
          | simp [isValidResponse, hfield, isNumOpt]
    · simp [isValidResponse, h]
  refine ⟨hv, by simp [processResponseBody, hv], rfl, rfl⟩

/-- C7, witness at the concrete body `{}` (an object missing all four
required fields). -/
theorem c7_invalid_response_rejected_witness :
    missingRequiredField (.jobj []) ∧
      (isValidResponse (.jobj []) = false ∧
        processResponseBody (.jobj []) = .error invalidResponseError ∧
        (createErrorState 0 invalidResponseError).etype = .network ∧
        (createErrorState 0 invalidResponseError).retryable = true) :=
  have hm : missingRequiredField (.jobj []) := Or.inl (fun s h => by
    simp [getField, lookupField] at h)
  ⟨hm, c7_invalid_response_rejected (.jobj []) 0 hm⟩

/-- C7, counterexample to the claim as stated: the failure produced for a
structurally invalid body (e.g. `{}`) is classified as `network`, not as
the claimed `server` kind — "Invalid" is capitalised, so the classifier's
lower-case "invalid" check misses it and nothing else matches. -/
theorem c7_counterexample :
    processResponseBody (.jobj []) = .error invalidResponseError ∧
      (createErrorState 0 invalidResponseError).etype ≠ ErrType.server ∧
      (createErrorState 0 invalidResponseError).etype = ErrType.network := by
  refine ⟨rfl, by decide, rfl⟩

/-- One `logError` step never leaves more than 100 entries when starting
from at most 100. -/
theorem logError_length_le (log : List ErrorState) (e : ErrorState)
    (h : log.length ≤ 100) : (logError log e).length ≤ 100 := by
  simp only [logError]
  split
  · rename_i hgt
    simp only [List.length_drop]
    omega
  · rename_i hle
    simp only [gt_iff_lt, not_lt] at hle
    omega

/-- C10, confirmed: every reachable error-log state holds at most 100
entries, so `getErrorStats` and `exportErrorLog` never observe more. -/
theorem c10_errorLog_bounded (log : List ErrorState) (h : ReachableLog log) :
    log.length ≤ 100 := by
  induction h with
  | init => simp
  | chatError log now e _ ih => exact logError_length_le _ _ ih
  | validationError log e _ ih => exact logError_length_le _ _ ih
  | storageError log e _ ih => exact logError_length_le _ _ ih
  | connectivityError log e _ ih => exact logError_length_le _ _ ih
  | clear log _ _ => simp

/-- C10, witness: the bound at the concrete reachable state obtained by
logging one chat error into a fresh handler. -/
theorem c10_errorLog_bounded_witness :
    (logError [] (createErrorState 0 invalidResponseError)).length ≤ 100 :=
  c10_errorLog_bounded _ (ReachableLog.chatError [] 0 invalidResponseError ReachableLog.init)

/-! ## Claims C4, C6, C9: session-store theorems -/

/-- A message lacking a required field fails the stored-message check. -/
theorem validMessage_eq_false_of_lacks (m : JValue) (h : messageLacksField m) :
    validMessage m = false := by
  cases m with
  | jobj fs =>
    rcases h with h | h | h | h
    · simp only [validMessage, h, truthyOpt, Bool.false_and]
    · simp only [validMessage, h, truthyOpt, Bool.and_false, Bool.false_and]
    · simp only [validMessage, h, truthyOpt, Bool.and_false, Bool.false_and]
    · have hstr : isStrOpt (getField (.jobj fs) "content") = false := by
        rcases hf : getField (.jobj fs) "content" with _ | v
        · rfl
        · cases v <;> first
            | (exact absurd hf (h _))
            | rfl
      simp only [validMessage, hstr, Bool.and_false]
  | jnull => rfl
  | jbool b => rfl
  | jnum n => rfl
  | jstr s => rfl
  | jarr l => rfl

/-- A malformed record fails `validateStorageData`. -/
theorem validateStorageData_eq_false_of_malformed (data : JValue)
    (h : malformedRecord data) : validateStorageData data = false := by
  cases data with
  | jobj fs =>
    rcases h with h | h | h | h
    · simp only [getField] at h
      simp only [validateStorageData, h, Option.isSome_none, Bool.false_and]
    · simp only [getField] at h
      simp only [validateStorageData, h, Option.isSome_none, Bool.false_and,
        Bool.and_false]
    · rcases hm : lookupField fs "messages" with _ | v
      · simp only [validateStorageData, hm, Option.isSome_none, Bool.and_false,
          Bool.false_and]
      · cases v with
        | jarr ms => exact absurd (by simpa [getField, hm] using rfl) (h ms)
        | jnull => simp [validateStorageData, hm]
        | jbool b => simp [validateStorageData, hm]
        | jnum n => simp [validateStorageData, hm]
        | jstr s => simp [validateStorageData, hm]
        | jobj fs2 => simp [validateStorageData, hm]
    · obtain ⟨ms, hms, m, hmem, hlacks⟩ := h
      simp only [getField] at hms
      have hall : ms.all validMessage = false := by
        rw [List.all_eq_false]
        exact ⟨m, hmem, by simp [validMessage_eq_false_of_lacks m hlacks]⟩
      simp [validateStorageData, hms, hall]
  | jnull => rfl
  | jbool b => rfl
  | jnum n => rfl
  | jstr s => rfl
  | jarr l => rfl

/-- C6, confirmed: `load()` returns null when nothing is stored, and every
stored record that is malformed (missing `version`, `sessionId` or
`messages`, `messages` not a sequence, or a message lacking `id`,
`timestamp`, `role` or string `content`) makes `load()` clear the durable
store and return null rather than surfacing it. -/
theorem c6_load_fail_closed :
    (∀ now fresh, loadChat none now fresh = (none, none)) ∧
    (∀ data now fresh, malformedRecord data →
      loadChat (some data) now fresh = (none, none)) := by
  refine ⟨fun _ _ => rfl, fun data now fresh h => ?_⟩
  have hv := validateStorageData_eq_false_of_malformed data h
  simp [loadChat, hv]

/-- C6, witness: the empty object is malformed (no `version`), and loading
it clears the store and returns null. -/
theorem c6_load_fail_closed_witness :
    malformedRecord (.jobj []) ∧ loadChat (some (.jobj [])) 0 "w" = (none, none) :=
  ⟨Or.inl rfl, c6_load_fail_closed.2 (.jobj []) 0 "w" (Or.inl rfl)⟩

/-- C9, amended: migration triggers when `version` is falsy or differs
from the current `'1.0'` and then always re-persists — but only a record
with a *falsy* (absent or empty) `version` is rewritten into the current
shape (version `'1.0'`, fresh `sessionId` when absent, `[]` messages when
absent, recomputed summary); a record with a present, truthy `version`
different from `'1.0'` is re-persisted **unchanged**, its version not
updated. -/
theorem c9_migrate_behaviour (data : JValue) (store : Option JValue) (now : Int)
    (fresh : String) :
    (getField data "version" = some (.jstr "1.0") →
      migrateData store data now fresh = (data, store)) ∧
    (truthyOpt (getField data "version") = false →
      migrateData store data now fresh =
        (migrateLegacy data now fresh, some (migrateLegacy data now fresh)) ∧
      getField (migrateLegacy data now fresh) "version" = some (.jstr "1.0") ∧
      (getField data "sessionId" = none →
        getField (migrateLegacy data now fresh) "sessionId" = some (.jstr fresh)) ∧
      (getField data "messages" = none →
        getField (migrateLegacy data now fresh) "messages" = some (.jarr []))) ∧
    (∀ s, s ≠ "1.0" → s ≠ "" → getField data "version" = some (.jstr s) →
      migrateData store data now fresh = (data, some data)) := by
  refine ⟨fun h => by simp [migrateData, h], fun h => ?_, fun s hne hns h => ?_⟩
  · have hcur : (match getField data "version" with
        | some (.jstr s) => decide (s = "1.0")
        | _ => false) = false := by
      rcases hv : getField data "version" with _ | v
      · rfl
      · cases v with
        | jstr s =>
          simp only [hv, truthyOpt, truthy] at h
          simp only [decide_eq_false_iff_not]
          intro hEq
          subst hEq
          simp at h
        | jnull => rfl
        | jbool b => rfl
        | jnum n => rfl
        | jarr l => rfl
        | jobj fs => rfl
    refine ⟨by simp [migrateData, hcur, h], by simp [migrateLegacy, getField, lookupField],
      fun h2 => ?_, fun h3 => ?_⟩
    · cases data <;> simp_all [migrateLegacy, getField, lookupField]
    · cases data <;> simp_all [migrateLegacy, getField, lookupField]
  · simp [migrateData, h, truthyOpt, truthy, hne, hns]

/-- C9, witness: a pre-versioned record (no `version` key) is rewritten
into the current shape and persisted. -/
theorem c9_migrate_behaviour_witness :
    truthyOpt (getField (.jobj [("sessionId", .jstr "sid"), ("messages", .jarr [])])
      "version") = false ∧
    (migrateData none (.jobj [("sessionId", .jstr "sid"), ("messages", .jarr [])]) 7 "w" =
      (migrateLegacy (.jobj [("sessionId", .jstr "sid"), ("messages", .jarr [])]) 7 "w",
        some (migrateLegacy (.jobj [("sessionId", .jstr "sid"), ("messages", .jarr [])])
          7 "w")) ∧
      getField (migrateLegacy (.jobj [("sessionId", .jstr "sid"), ("messages", .jarr [])])
        7 "w") "version" = some (.jstr "1.0") ∧
      (getField (.jobj [("sessionId", .jstr "sid"), ("messages", .jarr [])]) "sessionId"
          = none →
        getField (migrateLegacy (.jobj [("sessionId", .jstr "sid"),
          ("messages", .jarr [])]) 7 "w") "sessionId" = some (.jstr "w")) ∧
      (getField (.jobj [("sessionId", .jstr "sid"), ("messages", .jarr [])]) "messages"
          = none →
        getField (migrateLegacy (.jobj [("sessionId", .jstr "sid"),
          ("messages", .jarr [])]) 7 "w") "messages" = some (.jarr []))) :=
  ⟨rfl, (c9_migrate_behaviour (.jobj [("sessionId", .jstr "sid"), ("messages", .jarr [])])
    none 7 "w").2.1 rfl⟩

/-- C9, counterexample to the claim as stated: a stored record with the
present version `"0.9"` (≠ current `'1.0'`) triggers migration, but the
record is *not* rewritten — `migrateData` returns and re-persists it with
its version still `"0.9"`. -/
theorem c9_counterexample :
    (migrateData (some (.jobj [("version", .jstr "0.9"), ("sessionId", .jstr "s"),
        ("messages", .jarr [])]))
      (.jobj [("version", .jstr "0.9"), ("sessionId", .jstr "s"), ("messages", .jarr [])])
      7 "w").1 =
      .jobj [("version", .jstr "0.9"), ("sessionId", .jstr "s"), ("messages", .jarr [])] ∧
    getField ((migrateData (some (.jobj [("version", .jstr "0.9"),
        ("sessionId", .jstr "s"), ("messages", .jarr [])]))
      (.jobj [("version", .jstr "0.9"), ("sessionId", .jstr "s"), ("messages", .jarr [])])
      7 "w").1) "version" = some (.jstr "0.9") ∧
    ¬ getField ((migrateData (some (.jobj [("version", .jstr "0.9"),
        ("sessionId", .jstr "s"), ("messages", .jarr [])]))
      (.jobj [("version", .jstr "0.9"), ("sessionId", .jstr "s"), ("messages", .jarr [])])
      7 "w").1) "version" = some (.jstr "1.0") := by
  refine ⟨rfl, rfl, ?_⟩
  intro h
  have hv : getField ((migrateData (some (.jobj [("version", .jstr "0.9"),
      ("sessionId", .jstr "s"), ("messages", .jarr [])]))
    (.jobj [("version", .jstr "0.9"), ("sessionId", .jstr "s"), ("messages", .jarr [])])
    7 "w").1) "version" = some (.jstr "0.9") := rfl
  rw [hv] at h
  simp at h

/-- One sanitization pass is the identity on a message whose content it
does not change. -/
theorem sanitizeMessage_encodeMsg (purify : String → String) (m : ChatMessage)
    (hfix : sanitizeUserInput purify m.content = m.content) :
    sanitizeMessage purify (encodeMsg m) = encodeMsg m := by
  cases hmeta : m.metadata with
  | none => simp [sanitizeMessage, encodeMsg, setField, getField, lookupField, hmeta, hfix]
  | some j => simp [sanitizeMessage, encodeMsg, setField, getField, lookupField, hmeta, hfix]

/-- Under the fixed-content hypothesis, `sanitizeStorageData` returns the
built record unchanged. -/
theorem sanitizeStorageData_buildStoredData (purify : String → String)
    (state : ChatState) (store : Option JValue) (now : Int)
    (hfix : ∀ m ∈ state.messages, sanitizeUserInput purify m.content = m.content) :
    sanitizeStorageData purify (buildStoredData state store now) =
      some (buildStoredData state store now) := by
  have hmap : (state.messages.map encodeMsg).map (sanitizeMessage purify) =
      state.messages.map encodeMsg := by
    rw [List.map_map]
    refine List.map_congr_left ?_
    intro m hm
    exact sanitizeMessage_encodeMsg purify m (hfix m hm)
  simp [sanitizeStorageData, buildStoredData, lookupField, setField, hmap]

/-- Under the truthiness hypotheses, the built record passes
`validateStorageData`. -/
theorem validateStorageData_buildStoredData (state : ChatState)
    (store : Option JValue) (now : Int)
    (hid : ∀ m ∈ state.messages, m.id ≠ "")
    (hts : ∀ m ∈ state.messages, m.timestamp ≠ 0)
    (hrole : ∀ m ∈ state.messages, m.role ≠ "") :
    validateStorageData (buildStoredData state store now) = true := by
  simp only [buildStoredData]
  simp [validateStorageData, lookupField, List.all_eq_true, List.mem_map]
  intro m hm
  cases hmeta : m.metadata with
  | none =>
    simp [validMessage, encodeMsg, getField, lookupField, truthyOpt, truthy, isStrOpt,
      hmeta, hid m hm, hts m hm, hrole m hm]
  | some j =>
    simp [validMessage, encodeMsg, getField, lookupField, truthyOpt, truthy, isStrOpt,
      hmeta, hid m hm, hts m hm, hrole m hm]

/-- C4, amended: saving then loading a session within the 5 MB cap
preserves the message list — order, ids, timestamps, roles — *provided*
every message's content is a fixed point of the user-input sanitizer and
every message has truthy `id`/`timestamp`/`role`; the loaded raw message
objects are exactly the serialized forms of the original messages.  In
general content is rewritten by the save-time sanitization
(`c4_counterexample`). -/
theorem c4_save_load_roundtrip (purify : String → String) (state : ChatState)
    (store : Option JValue) (now now2 : Int) (fresh : String)
    (hfix : ∀ m ∈ state.messages, sanitizeUserInput purify m.content = m.content)
    (hid : ∀ m ∈ state.messages, m.id ≠ "")
    (hts : ∀ m ∈ state.messages, m.timestamp ≠ 0)
    (hrole : ∀ m ∈ state.messages, m.role ≠ "")
    (hsize : (jsonStringify (buildStoredData state store now)).length ≤ 5 * 1024 * 1024) :
    saveChat purify state store now = (some (buildStoredData state store now), true) ∧
    (loadChat (some (buildStoredData state store now)) now2 fresh).1 =
      some (buildStoredData state store now) ∧
    ((loadChat (some (buildStoredData state store now)) now2 fresh).2.map
      LoadedChatState.messages) = some (state.messages.map encodeMsg) := by
  have hsan := sanitizeStorageData_buildStoredData purify state store now hfix
  have hval := validateStorageData_buildStoredData state store now hid hts hrole
  have hnoclean : ¬ (jsonStringify (buildStoredData state store now)).length
      > 5 * 1024 * 1024 := by omega
  have hver : getField (buildStoredData state store now) "version" =
      some (.jstr "1.0") := by
    simp [buildStoredData, getField, lookupField]
  have hmigrate : migrateData (some (buildStoredData state store now))
      (buildStoredData state store now) now2 fresh =
      (buildStoredData state store now, some (buildStoredData state store now)) := by
    simp [migrateData, hver]
  refine ⟨?_, ?_, ?_⟩
  · simp [saveChat, hsan, hnoclean]
  · simp [loadChat, hval, hmigrate]
  · simp only [loadChat, hval, if_true, hmigrate]
    simp [buildStoredData, getField, lookupField]

/-- C4, witness: a one-message session with already-sanitized content
round-trips exactly. -/
theorem c4_save_load_roundtrip_witness :
    ((∀ m ∈ ([⟨"m1", 1, "user", "Bonjour", none⟩] : List ChatMessage),
        sanitizeUserInput domPurifyModel m.content = m.content) ∧
      (jsonStringify (buildStoredData
        ⟨[⟨"m1", 1, "user", "Bonjour", none⟩], "s", 0, "1.0", .jobj []⟩ none 7)).length
        ≤ 5 * 1024 * 1024) ∧
    ((loadChat (some (buildStoredData
        ⟨[⟨"m1", 1, "user", "Bonjour", none⟩], "s", 0, "1.0", .jobj []⟩ none 7)) 9 "f").2.map
      LoadedChatState.messages) =
      some (([⟨"m1", 1, "user", "Bonjour", none⟩] : List ChatMessage).map encodeMsg) :=
  ⟨⟨by decide, by decide⟩,
    (c4_save_load_roundtrip domPurifyModel
      ⟨[⟨"m1", 1, "user", "Bonjour", none⟩], "s", 0, "1.0", .jobj []⟩ none 7 9 "f"
      (by decide) (by decide) (by decide) (by decide) (by decide)).2.2⟩

/-- C4, counterexample to the claim as stated: a session whose single
message has content `" hi"` (leading space) serializes to well under 5 MB,
yet saving re-sanitizes the content to `"hi"`, so the loaded message list
differs from the original in content. -/
theorem c4_counterexample :
    ((loadChat (saveChat domPurifyModel
        ⟨[⟨"m1", 1, "user", " hi", none⟩], "s", 0, "1.0", .jobj []⟩ none 7).1 9 "f").2.map
      LoadedChatState.messages) = some [encodeMsg ⟨"m1", 1, "user", "hi", none⟩] ∧
    (([⟨"m1", 1, "user", " hi", none⟩] : List ChatMessage).map encodeMsg =
      [encodeMsg ⟨"m1", 1, "user", " hi", none⟩]) ∧
    ("hi" : String) ≠ " hi" := by
  exact ⟨rfl, rfl, by decide⟩

/-! ## Claims C5 and C8: controller theorems -/

/-- The fresh-id supply is injective. -/
theorem uuidModel_injective : Function.Injective uuidModel := by
  intro a b h
  have := congrArg String.length h
  simpa [uuidModel, String.length] using this

/-- C5, amended: a `submit` issued while a previous request is still
outstanding is **ignored** (first caller wins): the `isLoading` gate makes
`handleUserMessage` return with no state change, no message appended and
no new request issued — the earlier request is *not* cancelled — and the
outstanding request's response is the one appended when it resolves. -/
theorem c5_submit_while_loading (s : ControllerState) (t : String) (now : Int)
    (hload : s.isLoading = true) :
    handleUserMessageSubmit t now s = s ∧
    (∀ r now2, s.pending.isSome = true →
      (handleUserMessageResolve r now2 s).messages = s.messages ++
        [⟨uuidModel s.supply, now2, "assistant", r.response,
          some (.jobj [("requestId", .jstr r.requestId),
                       ("processingTime", .jnum r.processingTime),
                       ("confidence", .jnum r.confidence)])⟩]) := by
  constructor
  · simp [handleUserMessageSubmit, hload]
  · intro r now2 hp
    rcases h : s.pending with _ | req
    · rw [h] at hp; simp at hp
    · simp [handleUserMessageResolve, h]

/-- C5, witness: submitting "b" while "a" is outstanding leaves the state
untouched, and resolving appends the "a"-request's response. -/
theorem c5_submit_while_loading_witness :
    (handleUserMessageSubmit "b" 2
        ⟨[⟨uuidModel 1, 1, "user", "a", none⟩], uuidModel 0, 1, true, some "a", 2⟩ =
      ⟨[⟨uuidModel 1, 1, "user", "a", none⟩], uuidModel 0, 1, true, some "a", 2⟩) ∧
    (∀ r now2,
      (⟨[⟨uuidModel 1, 1, "user", "a", none⟩], uuidModel 0, 1, true, some "a", 2⟩ :
          ControllerState).pending.isSome = true →
      (handleUserMessageResolve r now2
        ⟨[⟨uuidModel 1, 1, "user", "a", none⟩], uuidModel 0, 1, true, some "a", 2⟩).messages =
        [⟨uuidModel 1, 1, "user", "a", none⟩] ++
        [⟨uuidModel 2, now2, "assistant", r.response,
          some (.jobj [("requestId", .jstr r.requestId),
                       ("processingTime", .jnum r.processingTime),
                       ("confidence", .jnum r.confidence)])⟩]) :=
  c5_submit_while_loading
    ⟨[⟨uuidModel 1, 1, "user", "a", none⟩], uuidModel 0, 1, true, some "a", 2⟩ "b" 2 rfl

/-- C5, counterexample to the claim as stated: submitting "a" then "b" in
quick succession does *not* cancel the first request — the second submit
is a no-op (state unchanged, "a" still the outstanding request), and the
superseded-by-intent response that arrives is the **first** message's: the
final conversation holds user "a" and its assistant reply, and no trace of
"b". -/
theorem c5_counterexample :
    (handleUserMessageSubmit "b" 2
        (handleUserMessageSubmit "a" 1 ⟨[], uuidModel 0, 0, false, none, 1⟩) =
      handleUserMessageSubmit "a" 1 ⟨[], uuidModel 0, 0, false, none, 1⟩) ∧
    (handleUserMessageSubmit "b" 2
        (handleUserMessageSubmit "a" 1 ⟨[], uuidModel 0, 0, false, none, 1⟩)).pending =
      some "a" ∧
    ((handleUserMessageResolve ⟨"ra", "rid", 5, 1⟩ 3
        (handleUserMessageSubmit "b" 2
          (handleUserMessageSubmit "a" 1
            ⟨[], uuidModel 0, 0, false, none, 1⟩))).messages.map
      (fun m => (m.role, m.content))) = [("user", "a"), ("assistant", "ra")] ∧
    ((handleUserMessageResolve ⟨"ra", "rid", 5, 1⟩ 3
        (handleUserMessageSubmit "b" 2
          (handleUserMessageSubmit "a" 1
            ⟨[], uuidModel 0, 0, false, none, 1⟩))).messages.all
      (fun m => m.content != "b")) = true := by
  exact ⟨rfl, rfl, rfl, rfl⟩

/-- C8, amended: the store-level clear leaves nothing to load
(`load()` returns null right after `clearChat`), and `handleClearChat`
resets the session to a freshly generated `sessionId` distinct from the
cleared session's — but it then immediately appends and **persists a
welcome message**, so a fresh submit starts from that one-message
sequence (and `load()` on the resulting store is no longer null). -/
theorem c8_clear_behaviour (purify : String → String) (s : ControllerState)
    (store : Option JValue) (now : Int) (fresh : String) (j : Nat)
    (hj : s.sessionId = uuidModel j) (hlt : j < s.supply) :
    loadChat (clearChat store) now fresh = (none, none) ∧
    (handleClearChat purify s store now true).1.sessionId = uuidModel s.supply ∧
    (handleClearChat purify s store now true).1.sessionId ≠ s.sessionId ∧
    (handleClearChat purify s store now true).1.messages =
      [⟨uuidModel (s.supply + 1), now, "assistant", welcomeContent, none⟩] := by
  refine ⟨rfl, ?_, ?_, ?_⟩
  · simp [handleClearChat, createInitialState]
  · have hsid : (handleClearChat purify s store now true).1.sessionId =
        uuidModel s.supply := by
      simp [handleClearChat, createInitialState]
    rw [hsid, hj]
    intro h
    exact absurd (uuidModel_injective h) (by omega)
  · simp [handleClearChat, createInitialState]

/-- C8, witness at a concrete cleared session. -/
theorem c8_clear_behaviour_witness :
    ((⟨[⟨uuidModel 1, 1, "user", "x", none⟩], uuidModel 0, 1, false, none, 2⟩ :
        ControllerState).sessionId = uuidModel 0 ∧ 0 < 2) ∧
    (loadChat (clearChat none) 5 "w" = (none, none) ∧
      (handleClearChat domPurifyModel
        ⟨[⟨uuidModel 1, 1, "user", "x", none⟩], uuidModel 0, 1, false, none, 2⟩
        none 5 true).1.sessionId = uuidModel 2 ∧
      (handleClearChat domPurifyModel
        ⟨[⟨uuidModel 1, 1, "user", "x", none⟩], uuidModel 0, 1, false, none, 2⟩
        none 5 true).1.sessionId ≠
        (⟨[⟨uuidModel 1, 1, "user", "x", none⟩], uuidModel 0, 1, false, none, 2⟩ :
          ControllerState).sessionId ∧
      (handleClearChat domPurifyModel
        ⟨[⟨uuidModel 1, 1, "user", "x", none⟩], uuidModel 0, 1, false, none, 2⟩
        none 5 true).1.messages =
        [⟨uuidModel 3, 5, "assistant", welcomeContent, none⟩]) :=
  ⟨⟨rfl, by decide⟩,
    c8_clear_behaviour domPurifyModel
      ⟨[⟨uuidModel 1, 1, "user", "x", none⟩], uuidModel 0, 1, false, none, 2⟩
      none 5 "w" 0 rfl (by decide)⟩

/-- C8, counterexample to the claim as stated: after the full clear flow,
`load()` does **not** return null (the welcome message was persisted), and
a fresh submit does not start from an empty message sequence — the state
already holds the welcome message. -/
theorem c8_counterexample :
    ((loadChat (handleClearChat domPurifyModel
        ⟨[⟨uuidModel 1, 1, "user", "x", none⟩], uuidModel 0, 1, false, none, 2⟩
        none 5 true).2 5 "w").2.isSome = true) ∧
    (handleClearChat domPurifyModel
        ⟨[⟨uuidModel 1, 1, "user", "x", none⟩], uuidModel 0, 1, false, none, 2⟩
        none 5 true).1.messages.length = 1 := by
  exact ⟨rfl, rfl⟩

end Eme
